import Mathlib

/-
Verification of the yar router core (src/router.ts): the query-validation
pipeline (`runValidation`, `fromError`, `createInternalContext`), route
registration (`createRoute`, `createRouter`) and resolution (`getRoute`).
Path matching is performed by the external `rou3` dependency, which is not
part of this repository; the registry/matcher is therefore modelled from the
specification (see the definitions marked "Modelled from the spec").
-/

namespace Yar

/-- A query-record entry value: `string | string[]`, matching the TS type of
`queryParams` (`Record<string, string | string[]>`). -/
inductive JSPrim where
  | str (s : String)
  | strList (l : List String)
deriving DecidableEq, Repr

/-- JavaScript-ish values flowing through the query pipeline: the raw query
mapping, schema outputs, and the `undefined` / `null` distinctions that the
source code observes via `??`, `||` and truthiness checks. The pipeline never
looks inside a record, so flat records suffice. -/
inductive JSVal where
  | undef
  | null
  | str (s : String)
  | strList (l : List String)
  | obj (fields : List (String × JSPrim))
deriving DecidableEq, Repr

/-- `x ?? y` in JS substitutes `y` exactly when `x` is `null` or `undefined`. -/
def JSVal.isNullish : JSVal → Bool
  | .undef => true
  | .null => true
  | _ => false

/-- JS truthiness for the values in our universe: `undefined`, `null` and the
empty string are falsy; arrays and objects (even empty ones) are truthy. -/
def JSVal.truthy : JSVal → Bool
  | .undef => false
  | .null => false
  | .str s => s ≠ ""
  | .strList _ => true
  | .obj _ => true

/-- A `{message: string}` object: both a standard-schema issue and the
normalized query error produced by `fromError` have this shape. -/
structure Issue where
  message : String
deriving DecidableEq, Repr

/-- The result of calling a standard schema's `~standard.validate`:
either `{value}` (success), `{issues: [...]}` (failure; the source checks
`if (result.issues)`, and a present issues array — even an empty one — is
truthy), or a `Promise` (asynchronous validation). -/
inductive ValidateResult where
  | value (v : JSVal)
  | failure (issues : List Issue)
  | promise

/-- A standard schema: its single synchronous validation entry point
`options.query["~standard"].validate`. -/
structure Schema where
  validate : JSVal → ValidateResult

/-- `RouteOptions` from src/types.ts: `{ query?: StandardSchemaV1 }`. -/
structure RouteOptions where
  query : Option Schema

/-- `fromError` from src/router.ts: collects the individual issue messages
into a list (which is then discarded) and returns the single aggregated
`{message: "Invalid <what> parameters"}` object. -/
def fromError (error : List Issue) (validating : String) : Issue :=
  let _errorMessages := error.map (·.message)
  { message := "Invalid " ++ validating ++ " parameters" }

/-- `ValidationResponse` from src/router.ts:
`{data: {query}, error: null}` or `{data: null, error: {message}}`. -/
inductive ValidationResponse where
  | ok (query : JSVal)
  | failure (error : Issue)

/-- `runValidation` from src/router.ts. It starts from
`request = {query: context.query}`; if a schema is configured it calls
`validate(context.query)`, throws on a `Promise` result, returns the
normalized error on issues, and otherwise replaces `request.query` with
`result.value`. A thrown error is modelled as `Except.error`. -/
def runValidation (options : RouteOptions) (ctxQuery : JSVal) :
    Except String ValidationResponse :=
  match options.query with
  | none => .ok (.ok ctxQuery)
  | some schema =>
    match schema.validate ctxQuery with
    | .promise =>
        .error "Async validation is not supported. Please use synchronous validators only."
    | .failure issues => .ok (.failure (fromError issues "query"))
    | .value v => .ok (.ok v)

/-- The context object handed to a route's internal handler
(built by `getRoute`, or supplied directly by a caller of the route):
optional `path`, optional `params`, a `query` value and an optional shared
`context`. Absent fields are `none`; `query` is a `JSVal` so an explicit
`undefined` can be distinguished. -/
structure InputContext where
  path : Option String
  params : Option (List (String × String))
  query : JSVal
  context : Option JSVal

/-- The context assembled by `createInternalContext` and passed to the
user-supplied handler. -/
structure InternalContext where
  path : String
  params : Option (List (String × String))
  query : JSVal
  queryError : Option Issue
  context : JSVal
  method : String

/-- `createInternalContext` from src/router.ts. If an options object is
present it runs validation (`data`/`error`); the delivered query is
`data?.query ?? undefined`, the path is `context.path || path`, the shared
context is `"context" in context && context.context ? context.context : {}`,
and params pass through when present. A validation contract violation
propagates as `Except.error`. -/
def createInternalContext (context : InputContext)
    (options : Option RouteOptions) (path : String) :
    Except String InternalContext := do
  let (data, error) ←
    match options with
    | none => pure ((none : Option JSVal), (none : Option Issue))
    | some opts =>
      match runValidation opts context.query with
      | .error e => Except.error e
      | .ok (.ok q) => pure (some q, none)
      | .ok (.failure err) => pure (none, some err)
  pure {
    path :=
      match context.path with
      | some p => if p = "" then path else p
      | none => path
    params := context.params
    query :=
      match data with
      | some q => if q.isNullish then .undef else q
      | none => .undef
    queryError := error
    context :=
      match context.context with
      | some c => if c.truthy then c else .obj []
      | none => .obj []
    method := "GET" }

/-- The declarative object returned by a user handler
(`HandlerReturn` in src/router.ts). Components and functions are opaque to
the router core, so they are modelled as optional identifiers. -/
structure HandlerReturn where
  PageComponent : Option Nat
  LoadingComponent : Option Nat
  ErrorComponent : Option Nat
  loader : Option Nat
  meta : Option Nat
  extra : Option Nat
deriving DecidableEq, Repr

/-- A route as produced by `createRoute`: the path pattern string, the
optional options object and the user handler (the internal handler wrapping
is `internalHandler` below). -/
structure Route where
  path : String
  options : Option RouteOptions
  handler : InternalContext → HandlerReturn

/-- `createRoute` from src/router.ts: attaches `path` and `options` to the
handler. -/
def createRoute (path : String) (handler : InternalContext → HandlerReturn)
    (options : Option RouteOptions) : Route :=
  { path := path, options := options, handler := handler }

/-- The internal handler built by `createRoute`: assembles the internal
context (running validation) and invokes the user handler on it. -/
def internalHandler (r : Route) (context : InputContext) :
    Except String HandlerReturn :=
  (createInternalContext context r.options r.path).map r.handler

/-- Modelled from the spec: one typed segment of a compiled route pattern
(the pattern compiler lives in the external `rou3` dependency, absent from
this repository). Literal, named parameter, wildcard (exactly one component)
and catch-all (one or more trailing components). -/
inductive Segment where
  | lit (s : String)
  | param (n : String)
  | wildcard (n : String)
  | catchAll (n : String)
deriving DecidableEq, Repr

/-- Modelled from the spec: split a character list on `/`, accumulating the
current component (reversed) in `acc`. -/
def splitOnSlash : List Char → List Char → List String
  | [], acc => [String.mk acc.reverse]
  | c :: cs, acc =>
      if c = '/' then String.mk acc.reverse :: splitOnSlash cs []
      else splitOnSlash cs (c :: acc)

/-- Modelled from the spec: "Splits the path into non-empty components
(leading/trailing slashes ignored)". -/
def splitPath (p : String) : List String :=
  (splitOnSlash p.data []).filter (fun s => s ≠ "")

/-- Modelled from the spec: compile one path segment. `:name` is a named
parameter; a bare `*` is an anonymous wildcard; `*:name` is a named
wildcard; `*name` / `**:name` are catch-alls (spec §4.1 and the catch-all
example `/files/*rest` of spec §8). -/
def parseSegmentChars : List Char → Segment
  | ':' :: rest => .param (String.mk rest)
  | '*' :: '*' :: ':' :: rest => .catchAll (String.mk rest)
  | '*' :: ':' :: rest => .wildcard (String.mk rest)
  | ['*'] => .wildcard "_"
  | '*' :: rest => .catchAll (String.mk rest)
  | cs => .lit (String.mk cs)

/-- Modelled from the spec: the pattern compiler — a route path string
becomes an ordered list of typed segments. -/
def parsePattern (p : String) : List Segment :=
  (splitPath p).map (fun s => parseSegmentChars s.data)

/-- Join path components with `/` (the capture of a catch-all segment). -/
def joinSlash : List String → String
  | [] => ""
  | [s] => s
  | s :: rest => s ++ "/" ++ joinSlash rest

/-- Modelled from the spec: match a compiled pattern against the path
components, producing the parameter bindings. A literal must match exactly;
a named parameter or wildcard consumes exactly one component and binds it
verbatim; a catch-all is only legal as the final segment and captures the
(non-empty) remaining components joined by `/`. -/
def matchSegs : List Segment → List String → Option (List (String × String))
  | [], [] => some []
  | [.catchAll n], cs =>
      if cs.isEmpty then none else some [(n, joinSlash cs)]
  | .lit s :: rest, c :: cs =>
      if s = c then matchSegs rest cs else none
  | .param n :: rest, c :: cs => (matchSegs rest cs).map ((n, c) :: ·)
  | .wildcard n :: rest, c :: cs => (matchSegs rest cs).map ((n, c) :: ·)
  | _, _ => none

/-- The names bound by a pattern: its named-parameter, wildcard and
catch-all segments in order. -/
def bindingNames : List Segment → List String
  | [] => []
  | .lit _ :: rest => bindingNames rest
  | .param n :: rest => n :: bindingNames rest
  | .wildcard n :: rest => n :: bindingNames rest
  | .catchAll n :: rest => n :: bindingNames rest

/-- Modelled from the spec: specificity rank of a segment — exact literal
beats named parameter, which beats wildcard, which beats catch-all. -/
def segRank : Segment → Nat
  | .lit _ => 0
  | .param _ => 1
  | .wildcard _ => 2
  | .catchAll _ => 3

/-- The position-wise rank list of a pattern. -/
def rankList (p : List Segment) : List Nat := p.map segRank

/-- Strict lexicographic comparison of rank lists: a lower rank at the
earliest differing position wins (spec §4.2 rules 1–3). -/
def lexLt : List Nat → List Nat → Bool
  | [], [] => false
  | [], _ :: _ => true
  | _ :: _, [] => false
  | a :: as, b :: bs => a < b || (a = b && lexLt as bs)

/-- Modelled from the spec: the route registry — compiled patterns with
their routes, in registration order. -/
abbrev Registry := List (List Segment × Route)

/-- Modelled from the spec: insertion into the registry. A duplicate of an
already-registered pattern silently overwrites the earlier registration
(last registration wins); otherwise the route is appended, preserving
registration order. -/
def addRoute (reg : Registry) (r : Route) : Registry :=
  let pat := parsePattern r.path
  if reg.any (fun e => e.1 = pat) then
    reg.map (fun e => if e.1 = pat then (pat, r) else e)
  else
    reg ++ [(pat, r)]

/-- Modelled from the spec: lookup — among all registered patterns that
match the path, the most specific one wins (position-wise lexicographic
rank, spec §4.2 rules 1–3); among equally specific patterns the one
registered first wins (rule 4). -/
def findRoute (reg : Registry) (path : String) :
    Option (Route × List (String × String)) :=
  let comps := splitPath path
  let cands := reg.filterMap
    (fun e => (matchSegs e.1 comps).map (fun ps => (e.1, e.2, ps)))
  match cands.foldl
      (fun best c =>
        match best with
        | none => some c
        | some b => if lexLt (rankList c.1) (rankList b.1) then some c else some b)
      none with
  | none => none
  | some (_, r, ps) => some (r, ps)

/-- `RouterConfig` from src/types.ts: `{ routerContext?: RouterContext }`. -/
structure RouterConfig where
  routerContext : Option JSVal

/-- The shared context delivered on each resolve call:
`config?.routerContext || {}` from src/router.ts. -/
def resolveRouterContext (config : Option RouterConfig) : JSVal :=
  match config with
  | some cfg =>
    match cfg.routerContext with
    | some c => if c.truthy then c else .obj []
    | none => .obj []
  | none => .obj []

/-- A built router: the populated registry plus the configuration captured
by the `getRoute` closure. -/
structure Router where
  registry : Registry
  config : Option RouterConfig

/-- `createRouter` from src/router.ts: inserts every route of the collection
into a fresh registry, in order. -/
def createRouter (routes : List Route) (config : Option RouterConfig) : Router :=
  { registry := routes.foldl addRoute [], config := config }

/-- The default for `getRoute`'s `queryParams` parameter: an omitted (or
explicitly `undefined`) argument becomes the empty mapping `{}`; any other
value (including `null`) is taken as given. -/
def normalizeQueryParams : Option JSVal → JSVal
  | none => .obj []
  | some .undef => .obj []
  | some v => v

/-- The object returned by `getRoute` on a match: the destructured handler
response plus the extracted params. -/
structure GetRouteReturn where
  PageComponent : Option Nat
  LoadingComponent : Option Nat
  ErrorComponent : Option Nat
  params : List (String × String)
  loader : Option Nat
  meta : Option Nat
  extra : Option Nat
deriving DecidableEq, Repr

/-- Re-assembly of `getRoute`'s return object from the handler response and
the extracted params. -/
def assembleReturn (resp : HandlerReturn) (params : List (String × String)) :
    GetRouteReturn :=
  { PageComponent := resp.PageComponent
    LoadingComponent := resp.LoadingComponent
    ErrorComponent := resp.ErrorComponent
    params := params
    loader := resp.loader
    meta := resp.meta
    extra := resp.extra }

/-- `getRoute` from src/router.ts: find the route, return `null` when there
is none, otherwise build the request context (path, params, query, shared
context) and run the route's internal handler on it, re-packaging its
response together with the params. An exception thrown by validation
propagates (`Except.error`). -/
def getRoute (router : Router) (path : String) (queryParams : Option JSVal) :
    Except String (Option GetRouteReturn) :=
  match findRoute router.registry path with
  | none => .ok none
  | some (route, params) =>
    (internalHandler route
      { path := some path
        params := some params
        query := normalizeQueryParams queryParams
        context := some (resolveRouterContext router.config) }).map
      (fun resp => some (assembleReturn resp params))

/-- `getRoute` with the router state threaded explicitly: the body of the
source `getRoute` only reads the captured registry and config and never
assigns to them, so the call returns the router unchanged. -/
def getRouteSt (router : Router) (path : String) (queryParams : Option JSVal) :
    Except String (Option GetRouteReturn) × Router :=
  (getRoute router path queryParams, router)

/-- Test fixture: a route created without any options object. Its handler
reports which query value it observed: 1 for the raw mapping
`{a: "1"}`, 2 for `undefined`, 0 otherwise. -/
def noOptionsProbeRoute : Route :=
  { path := "/search"
    options := none
    handler := fun ictx =>
      { PageComponent := none, LoadingComponent := none, ErrorComponent := none
        loader := none, meta := none
        extra := some (if ictx.query = JSVal.obj [("a", JSPrim.str "1")] then 1
                       else if ictx.query = JSVal.undef then 2 else 0) } }

/-- Test fixture: a router holding only `noOptionsProbeRoute`. -/
def noOptionsProbeRouter : Router := createRouter [noOptionsProbeRoute] none

/-- Test fixture: a schema that accepts every input and returns `null` as its
output value. -/
def nullOutputSchema : Schema := { validate := fun _ => .value JSVal.null }

/-- Test fixture: a route whose schema returns `null`; the handler reports
1 if it observed `null` as the query, 2 for `undefined`, 0 otherwise. -/
def nullOutputRoute : Route :=
  { path := "/s"
    options := some { query := some nullOutputSchema }
    handler := fun ictx =>
      { PageComponent := none, LoadingComponent := none, ErrorComponent := none
        loader := none, meta := none
        extra := some (if ictx.query = JSVal.null then 1
                       else if ictx.query = JSVal.undef then 2 else 0) } }

/-- Test fixture: a router holding only `nullOutputRoute`. -/
def nullOutputRouter : Router := createRouter [nullOutputRoute] none

/-- Test fixture: a schema whose validation always returns a `Promise`. -/
def asyncSchema : Schema := { validate := fun _ => .promise }

/-- Test fixture: options carrying the asynchronous schema. -/
def asyncRouteOptions : RouteOptions := { query := some asyncSchema }

/-- Test fixture: a route configured with the asynchronous schema. -/
def asyncRoute : Route :=
  { path := "/auth"
    options := some asyncRouteOptions
    handler := fun _ => ⟨none, none, none, none, none, none⟩ }

/-- Test fixture: a router holding only `asyncRoute`. -/
def asyncRouter : Router := createRouter [asyncRoute] none

/-- Test fixture: a schema that rejects every input with one issue. -/
def failingSchema : Schema :=
  { validate := fun _ => .failure [{ message := "Invalid query" }] }

/-- Test fixture: options carrying the always-failing schema. -/
def failingRouteOptions : RouteOptions := { query := some failingSchema }

/-- Test fixture: a route configured with the always-failing schema. -/
def failingRoute : Route :=
  { path := "/form"
    options := some failingRouteOptions
    handler := fun _ => ⟨none, none, none, none, none, none⟩ }

/-- Test fixture: a router holding only `failingRoute`. -/
def failingRouter : Router := createRouter [failingRoute] none

/-- Test fixture: an options object with no query schema. -/
def noSchemaOptions : RouteOptions := { query := none }

/-- Test fixture: a route created with an options object but no schema. -/
def noSchemaRoute : Route :=
  { path := "/products"
    options := some noSchemaOptions
    handler := fun _ => ⟨none, none, none, none, none, none⟩ }

/-- Test fixture: a router holding only `noSchemaRoute`. -/
def noSchemaRouter : Router := createRouter [noSchemaRoute] none

/-- Test fixture: a schema that echoes its input as the output value. -/
def passingSchema : Schema := { validate := fun v => .value v }

/-- Test fixture: options carrying the echoing schema. -/
def passingRouteOptions : RouteOptions := { query := some passingSchema }

/-- Test fixture: a route configured with the echoing schema. -/
def passingRoute : Route :=
  { path := "/item"
    options := some passingRouteOptions
    handler := fun _ => ⟨none, none, none, none, none, none⟩ }

/-- Test fixture: a router holding only `passingRoute`. -/
def passingRouter : Router := createRouter [passingRoute] none

/-- Test fixture: a schema that rejects the empty mapping `{}` (a required
key is missing) and otherwise echoes its input. -/
def requiredKeySchema : Schema :=
  { validate := fun v =>
      if v = JSVal.obj [] then .failure [{ message := "Required" }] else .value v }

/-- Test fixture: options carrying the required-key schema. -/
def requiredKeyRouteOptions : RouteOptions := { query := some requiredKeySchema }

/-- Test fixture: a route configured with the required-key schema. -/
def requiredKeyRoute : Route :=
  { path := "/need"
    options := some requiredKeyRouteOptions
    handler := fun _ => ⟨none, none, none, none, none, none⟩ }

/-- Test fixture: a router holding only `requiredKeyRoute`. -/
def requiredKeyRouter : Router := createRouter [requiredKeyRoute] none

/-- An explicitly passed query argument other than `undefined` is not
replaced by the default `{}`. -/
lemma normalizeQueryParams_some_of_ne (q : JSVal) (h : q ≠ JSVal.undef) :
    normalizeQueryParams (some q) = q := by
  cases q with
  | undef => exact absurd rfl h
  | null => rfl
  | str s => rfl
  | strList l => rfl
  | obj f => rfl

/-- When the lookup finds a route, `getRoute` is the route's internal
handler run on the assembled input context, re-packaged with the params. -/
lemma getRoute_eq_found (router : Router) (path : String) (q : Option JSVal)
    (route : Route) (ps : List (String × String))
    (hfind : findRoute router.registry path = some (route, ps)) :
    getRoute router path q =
      (internalHandler route
        { path := some path
          params := some ps
          query := normalizeQueryParams q
          context := some (resolveRouterContext router.config) }).map
        (fun resp => some (assembleReturn resp ps)) := by
  unfold getRoute
  rw [hfind]

/-- Claim C1: for every route configured with a query schema, if the
schema's validate returns a pending `Promise`, `resolve` raises the
async-validation error immediately and returns no route or context. -/
theorem getRoute_async_validation_throws (router : Router) (path : String) (q : JSVal)
    (route : Route) (ps : List (String × String)) (opts : RouteOptions) (sch : Schema)
    (hfind : findRoute router.registry path = some (route, ps))
    (hopts : route.options = some opts)
    (hsch : opts.query = some sch)
    (hq : q ≠ JSVal.undef)
    (hasync : sch.validate q = ValidateResult.promise) :
    getRoute router path (some q) =
      .error "Async validation is not supported. Please use synchronous validators only." := by
  rw [getRoute_eq_found router path (some q) route ps hfind,
    normalizeQueryParams_some_of_ne q hq]
  simp [internalHandler, createInternalContext, hopts, runValidation, hsch, hasync, Except.map]

/-- Witness for C1: a concrete router whose single route has an
asynchronous schema; resolving it throws the async-validation error. -/
theorem getRoute_async_validation_throws_witness :
    findRoute asyncRouter.registry "/auth" = some (asyncRoute, []) ∧
    asyncSchema.validate (JSVal.obj [("token", JSPrim.str "abc123")]) =
      ValidateResult.promise ∧
    getRoute asyncRouter "/auth" (some (JSVal.obj [("token", JSPrim.str "abc123")])) =
      .error "Async validation is not supported. Please use synchronous validators only." :=
  ⟨rfl, rfl,
    getRoute_async_validation_throws asyncRouter "/auth"
      (JSVal.obj [("token", JSPrim.str "abc123")]) asyncRoute [] asyncRouteOptions
      asyncSchema rfl rfl rfl (by decide) rfl⟩

/-- Claim C2: on a validation failure resolve still returns the matched
route (the handler runs); in the handler's context the query is `undefined`
and the query error is exactly `{message: "Invalid query parameters"}`,
regardless of the number or text of the individual issues. -/
theorem getRoute_validation_failure_graceful (router : Router) (path : String) (q : JSVal)
    (route : Route) (ps : List (String × String)) (opts : RouteOptions) (sch : Schema)
    (issues : List Issue)
    (hfind : findRoute router.registry path = some (route, ps))
    (hopts : route.options = some opts)
    (hsch : opts.query = some sch)
    (hq : q ≠ JSVal.undef)
    (hval : sch.validate q = ValidateResult.failure issues) :
    ∃ ictx : InternalContext,
      createInternalContext
        { path := some path
          params := some ps
          query := q
          context := some (resolveRouterContext router.config) }
        route.options route.path = .ok ictx ∧
      ictx.query = JSVal.undef ∧
      ictx.queryError = some { message := "Invalid query parameters" } ∧
      getRoute router path (some q) = .ok (some (assembleReturn (route.handler ictx) ps)) := by
  refine ⟨{ path := if path = "" then route.path else path
            params := some ps
            query := JSVal.undef
            queryError := some (fromError issues "query")
            context :=
              if (resolveRouterContext router.config).truthy then
                resolveRouterContext router.config
              else JSVal.obj []
            method := "GET" }, ?_, rfl, rfl, ?_⟩
  · simp [createInternalContext, hopts, runValidation, hsch, hval, pure, Except.pure,
      bind, Except.bind]
  · rw [getRoute_eq_found router path (some q) route ps hfind,
      normalizeQueryParams_some_of_ne q hq]
    simp [internalHandler, createInternalContext, hopts, runValidation, hsch, hval,
      Except.map, pure, Except.pure, bind, Except.bind]

/-- Witness for C2: a concrete failing schema; resolving still yields the
route, with the query undefined and the aggregated error attached. -/
theorem getRoute_validation_failure_graceful_witness :
    ∃ ictx : InternalContext,
      createInternalContext
        { path := some "/form"
          params := some []
          query := JSVal.obj [("invalid", JSPrim.str "data")]
          context := some (resolveRouterContext failingRouter.config) }
        failingRoute.options failingRoute.path = .ok ictx ∧
      ictx.query = JSVal.undef ∧
      ictx.queryError = some { message := "Invalid query parameters" } ∧
      getRoute failingRouter "/form" (some (JSVal.obj [("invalid", JSPrim.str "data")])) =
        .ok (some (assembleReturn (failingRoute.handler ictx) [])) :=
  getRoute_validation_failure_graceful failingRouter "/form"
    (JSVal.obj [("invalid", JSPrim.str "data")]) failingRoute [] failingRouteOptions
    failingSchema [{ message := "Invalid query" }] rfl rfl rfl (by decide) rfl

/-- Claim C3 (counterexample): a route created with no options object at
all does NOT pass the raw query mapping through — the handler observes
`undefined` (probe value 2), not the raw mapping `{a: "1"}` (probe value 1),
and `undefined` differs from that mapping. -/
theorem getRoute_no_options_query_dropped :
    (getRoute noOptionsProbeRouter "/search" (some (JSVal.obj [("a", JSPrim.str "1")])) =
      .ok (some { PageComponent := none, LoadingComponent := none, ErrorComponent := none
                  params := [], loader := none, meta := none, extra := some 2 })) ∧
    JSVal.undef ≠ JSVal.obj [("a", JSPrim.str "1")] :=
  ⟨rfl, by decide⟩

/-- Claim C3 (amended): for every route created with an options object that
has no query schema, resolve delivers the raw query mapping unchanged as
the handler's query value, with no query error; routes created without any
options object instead deliver `undefined` (see the counterexample). -/
theorem getRoute_no_schema_options_passthrough (router : Router) (path : String)
    (fields : List (String × JSPrim)) (route : Route) (ps : List (String × String))
    (opts : RouteOptions)
    (hfind : findRoute router.registry path = some (route, ps))
    (hopts : route.options = some opts)
    (hsch : opts.query = none) :
    ∃ ictx : InternalContext,
      createInternalContext
        { path := some path
          params := some ps
          query := JSVal.obj fields
          context := some (resolveRouterContext router.config) }
        route.options route.path = .ok ictx ∧
      ictx.query = JSVal.obj fields ∧
      ictx.queryError = none ∧
      getRoute router path (some (JSVal.obj fields)) =
        .ok (some (assembleReturn (route.handler ictx) ps)) := by
  refine ⟨{ path := if path = "" then route.path else path
            params := some ps
            query := JSVal.obj fields
            queryError := none
            context :=
              if (resolveRouterContext router.config).truthy then
                resolveRouterContext router.config
              else JSVal.obj []
            method := "GET" }, ?_, rfl, rfl, ?_⟩
  · simp [createInternalContext, hopts, runValidation, hsch, JSVal.isNullish, pure, Except.pure,
      bind, Except.bind]
  · rw [getRoute_eq_found router path (some (JSVal.obj fields)) route ps hfind]
    simp [internalHandler, createInternalContext, hopts, runValidation, hsch,
      normalizeQueryParams, JSVal.isNullish, Except.map, pure, Except.pure, bind, Except.bind]

/-- Witness for amended C3: a concrete route with an options object and no
schema; the raw mapping `{a: "1"}` passes through unchanged. -/
theorem getRoute_no_schema_options_passthrough_witness :
    ∃ ictx : InternalContext,
      createInternalContext
        { path := some "/products"
          params := some []
          query := JSVal.obj [("a", JSPrim.str "1")]
          context := some (resolveRouterContext noSchemaRouter.config) }
        noSchemaRoute.options noSchemaRoute.path = .ok ictx ∧
      ictx.query = JSVal.obj [("a", JSPrim.str "1")] ∧
      ictx.queryError = none ∧
      getRoute noSchemaRouter "/products" (some (JSVal.obj [("a", JSPrim.str "1")])) =
        .ok (some (assembleReturn (noSchemaRoute.handler ictx) [])) :=
  getRoute_no_schema_options_passthrough noSchemaRouter "/products"
    [("a", JSPrim.str "1")] noSchemaRoute [] noSchemaOptions rfl rfl rfl

/-- Claim C4 (counterexample): a schema whose accepted output is `null` does
not see `null` delivered as the query — the handler observes `undefined`
(probe value 2), not the schema output `null` (probe value 1), and
`undefined` differs from `null`. -/
theorem getRoute_null_output_becomes_undefined :
    (getRoute nullOutputRouter "/s" (some (JSVal.obj [("q", JSPrim.str "x")])) =
      .ok (some { PageComponent := none, LoadingComponent := none, ErrorComponent := none
                  params := [], loader := none, meta := none, extra := some 2 })) ∧
    JSVal.undef ≠ JSVal.null :=
  ⟨rfl, by decide⟩

/-- Claim C4 (amended): when the schema accepts the query input, the
delivered query value is the schema's output, except that a `null` (or
`undefined`) output is delivered as `undefined`; the query error is null. -/
theorem getRoute_validation_success (router : Router) (path : String) (q v : JSVal)
    (route : Route) (ps : List (String × String)) (opts : RouteOptions) (sch : Schema)
    (hfind : findRoute router.registry path = some (route, ps))
    (hopts : route.options = some opts)
    (hsch : opts.query = some sch)
    (hq : q ≠ JSVal.undef)
    (hval : sch.validate q = ValidateResult.value v) :
    ∃ ictx : InternalContext,
      createInternalContext
        { path := some path
          params := some ps
          query := q
          context := some (resolveRouterContext router.config) }
        route.options route.path = .ok ictx ∧
      ictx.query = (if v.isNullish then JSVal.undef else v) ∧
      ictx.queryError = none ∧
      getRoute router path (some q) =
        .ok (some (assembleReturn (route.handler ictx) ps)) := by
  refine ⟨{ path := if path = "" then route.path else path
            params := some ps
            query := if v.isNullish then JSVal.undef else v
            queryError := none
            context :=
              if (resolveRouterContext router.config).truthy then
                resolveRouterContext router.config
              else JSVal.obj []
            method := "GET" }, ?_, rfl, rfl, ?_⟩
  · simp [createInternalContext, hopts, runValidation, hsch, hval, pure, Except.pure,
      bind, Except.bind]
  · rw [getRoute_eq_found router path (some q) route ps hfind,
      normalizeQueryParams_some_of_ne q hq]
    simp [internalHandler, createInternalContext, hopts, runValidation, hsch, hval,
      Except.map, pure, Except.pure, bind, Except.bind]

/-- Witness for amended C4: the echoing schema accepts `{id: "test-id"}`
and the handler receives exactly that output with no query error. -/
theorem getRoute_validation_success_witness :
    ∃ ictx : InternalContext,
      createInternalContext
        { path := some "/item"
          params := some []
          query := JSVal.obj [("id", JSPrim.str "test-id")]
          context := some (resolveRouterContext passingRouter.config) }
        passingRoute.options passingRoute.path = .ok ictx ∧
      ictx.query =
        (if (JSVal.obj [("id", JSPrim.str "test-id")]).isNullish then JSVal.undef
         else JSVal.obj [("id", JSPrim.str "test-id")]) ∧
      ictx.queryError = none ∧
      getRoute passingRouter "/item" (some (JSVal.obj [("id", JSPrim.str "test-id")])) =
        .ok (some (assembleReturn (passingRoute.handler ictx) [])) :=
  getRoute_validation_success passingRouter "/item"
    (JSVal.obj [("id", JSPrim.str "test-id")]) (JSVal.obj [("id", JSPrim.str "test-id")])
    passingRoute [] passingRouteOptions passingSchema rfl rfl rfl (by decide) rfl

/-- Claim C5: an exact-literal route beats a parameterized route regardless
of registration order — with `/users/:id` and `/users/me` registered in
either order (any options, handlers, config), resolving `/users/me` selects
the `/users/me` route and resolving `/users/123` selects `/users/:id` with
the binding `id = "123"`. -/
theorem exact_literal_beats_param (o1 o2 : Option RouteOptions)
    (f g : InternalContext → HandlerReturn) (cfg : Option RouterConfig) :
    (findRoute (createRouter [⟨"/users/:id", o1, f⟩, ⟨"/users/me", o2, g⟩] cfg).registry
        "/users/me" = some (⟨"/users/me", o2, g⟩, []) ∧
      findRoute (createRouter [⟨"/users/:id", o1, f⟩, ⟨"/users/me", o2, g⟩] cfg).registry
        "/users/123" = some (⟨"/users/:id", o1, f⟩, [("id", "123")])) ∧
    (findRoute (createRouter [⟨"/users/me", o2, g⟩, ⟨"/users/:id", o1, f⟩] cfg).registry
        "/users/me" = some (⟨"/users/me", o2, g⟩, []) ∧
      findRoute (createRouter [⟨"/users/me", o2, g⟩, ⟨"/users/:id", o1, f⟩] cfg).registry
        "/users/123" = some (⟨"/users/:id", o1, f⟩, [("id", "123")])) :=
  ⟨⟨rfl, rfl⟩, ⟨rfl, rfl⟩⟩

/-- Every component of a path split on `/` that contains no slash is the
single component itself. -/
lemma splitOnSlash_no_slash (cs : List Char) (acc : List Char)
    (h : ∀ c ∈ cs, c ≠ '/') :
    splitOnSlash cs acc = [String.mk (acc.reverse ++ cs)] := by
  induction cs generalizing acc with
  | nil => simp [splitOnSlash]
  | cons c cs ih =>
    have hc : c ≠ '/' := h c (by simp)
    rw [splitOnSlash, if_neg hc, ih (c :: acc) (fun x hx => h x (by simp [hx]))]
    simp

/-- Splitting `/x/<v>` for a non-empty slash-free `v` yields `["x", v]`. -/
lemma splitPath_x_param (v : String) (hv : v ≠ "") (h : ∀ c ∈ v.data, c ≠ '/') :
    splitPath ("/x/" ++ v) = ["x", v] := by
  have hd : ("/x/" ++ v).data = '/' :: 'x' :: '/' :: v.data := by
    rw [String.data_append]
    rfl
  unfold splitPath
  rw [hd]
  simp [splitOnSlash]
  rw [splitOnSlash_no_slash v.data [] h]
  have hmk : String.mk v.data = v := rfl
  simp [hmk, hv]

/-- A successful match binds exactly the named, wildcard and catch-all
segments of the pattern, in order. -/
lemma matchSegs_keys (pat : List Segment) :
    ∀ comps ps, matchSegs pat comps = some ps → ps.map Prod.fst = bindingNames pat := by
  induction pat with
  | nil =>
    intro comps ps h
    cases comps with
    | nil => simp [matchSegs] at h; subst h; rfl
    | cons c cs => simp [matchSegs] at h
  | cons s rest ih =>
    intro comps ps h
    cases s with
    | lit t =>
      cases comps with
      | nil => simp [matchSegs] at h
      | cons c cs =>
        by_cases hc : t = c
        · subst hc
          rw [matchSegs, if_pos rfl] at h
          simpa [bindingNames] using ih cs ps h
        · rw [matchSegs, if_neg hc] at h
          cases h
    | param n =>
      cases comps with
      | nil => simp [matchSegs] at h
      | cons c cs =>
        simp only [matchSegs, Option.map_eq_some'] at h
        obtain ⟨a, ha, rfl⟩ := h
        simp [bindingNames, ih cs a ha]
    | wildcard n =>
      cases comps with
      | nil => simp [matchSegs] at h
      | cons c cs =>
        simp only [matchSegs, Option.map_eq_some'] at h
        obtain ⟨a, ha, rfl⟩ := h
        simp [bindingNames, ih cs a ha]
    | catchAll n =>
      cases rest with
      | nil =>
        cases comps with
        | nil => simp [matchSegs] at h
        | cons c cs =>
          simp [matchSegs] at h
          subst h
          simp [bindingNames]
      | cons r rs =>
        cases comps <;> simp [matchSegs] at h

/-- Claim C6: every successful match binds exactly the named, wildcard and
catch-all segments of the winning pattern; for `/files/*rest` against
`/files/a/b/c` the catch-all binds `rest = "a/b/c"` (remaining components
joined by `/`); for a `:id` pattern against `/x/<v>` the binding is
`id = v`, taken verbatim. -/
theorem match_params_bindings :
    (∀ pat comps ps, matchSegs pat comps = some ps → ps.map Prod.fst = bindingNames pat) ∧
    (∀ (o : Option RouteOptions) (f : InternalContext → HandlerReturn)
        (cfg : Option RouterConfig),
      findRoute (createRouter [⟨"/files/*rest", o, f⟩] cfg).registry "/files/a/b/c" =
        some (⟨"/files/*rest", o, f⟩, [("rest", "a/b/c")])) ∧
    (∀ (v : String) (o : Option RouteOptions) (f : InternalContext → HandlerReturn)
        (cfg : Option RouterConfig),
      v ≠ "" → (∀ c ∈ v.data, c ≠ '/') →
      findRoute (createRouter [⟨"/x/:id", o, f⟩] cfg).registry ("/x/" ++ v) =
        some (⟨"/x/:id", o, f⟩, [("id", v)])) := by
  refine ⟨matchSegs_keys, fun o f cfg => rfl, fun v o f cfg hv h => ?_⟩
  have hsp : splitPath ("/x/" ++ v) = ["x", v] := splitPath_x_param v hv h
  unfold findRoute
  simp only [hsp]
  simp [createRouter, addRoute, parsePattern, splitPath, splitOnSlash, parseSegmentChars,
    matchSegs, rankList, lexLt, joinSlash]

/-- Witness for C6: concrete bindings for a literal/param/catch-all pattern,
and the `:id` route resolved at `v = "123"`. -/
theorem match_params_bindings_witness :
    ([("id", "7"), ("rest", "a/b")].map Prod.fst =
      bindingNames [Segment.lit "u", Segment.param "id", Segment.catchAll "rest"]) ∧
    findRoute
        (createRouter
          [⟨"/x/:id", none, fun _ => ⟨none, none, none, none, none, none⟩⟩] none).registry
        "/x/123" =
      some (⟨"/x/:id", none, fun _ => ⟨none, none, none, none, none, none⟩⟩,
        [("id", "123")]) :=
  ⟨match_params_bindings.1 [Segment.lit "u", Segment.param "id", Segment.catchAll "rest"]
      ["u", "7", "a", "b"] [("id", "7"), ("rest", "a/b")] rfl,
    match_params_bindings.2.2 "123" none (fun _ => ⟨none, none, none, none, none, none⟩)
      none (by decide) (by decide)⟩

/-- Claim C7: when no registered pattern matches the path, resolve returns
`null` (`.ok none`) and raises no error, whatever the query argument and
schemas. -/
theorem getRoute_no_match_returns_none (router : Router) (path : String) (q : Option JSVal)
    (h : ∀ e ∈ router.registry, matchSegs e.1 (splitPath path) = none) :
    getRoute router path q = .ok none := by
  have hc : router.registry.filterMap
      (fun e => (matchSegs e.1 (splitPath path)).map (fun ps => (e.1, e.2, ps))) = [] := by
    rw [List.filterMap_eq_nil_iff]
    intro e he
    rw [h e he]
    rfl
  unfold getRoute findRoute
  simp [hc]

/-- Witness for C7: a router with only the root route resolves
`/does-not-exist` to `null` without an error. -/
theorem getRoute_no_match_returns_none_witness :
    getRoute
      (createRouter [⟨"/", none, fun _ => ⟨none, none, none, none, none, none⟩⟩] none)
      "/does-not-exist" none = .ok none :=
  getRoute_no_match_returns_none _ "/does-not-exist" none (by
    intro e he
    have hreg :
        (createRouter
          [(⟨"/", none, fun _ => ⟨none, none, none, none, none, none⟩⟩ : Route)]
          none).registry =
        [([], ⟨"/", none, fun _ => ⟨none, none, none, none, none, none⟩⟩)] := rfl
    rw [hreg] at he
    obtain rfl := List.mem_singleton.mp he
    rfl)

/-- Claim C8: registering two routes with the identical path pattern makes
the router identical to one built from the later route alone — the later
registration wins and the earlier one is unreachable. -/
theorem duplicate_pattern_last_wins (p : String) (o1 o2 : Option RouteOptions)
    (f g : InternalContext → HandlerReturn) (cfg : Option RouterConfig) :
    createRouter [⟨p, o1, f⟩, ⟨p, o2, g⟩] cfg = createRouter [⟨p, o2, g⟩] cfg := by
  simp [createRouter, addRoute]

/-- Claim C9: a resolve call leaves the router (registry and config)
unchanged, and a second resolve with the same inputs on the router returned
by the first yields the identical result. -/
theorem getRoute_idempotent (router : Router) (path : String) (q : Option JSVal) :
    (getRouteSt router path q).2 = router ∧
    (getRouteSt (getRouteSt router path q).2 path q).1 = (getRouteSt router path q).1 :=
  ⟨rfl, rfl⟩

/-- Claim C10: resolving with the query argument omitted is identical to
resolving with the explicit empty mapping `{}`; in particular a schema is
invoked on `{}` (never on `undefined`), so a schema that rejects `{}`
produces a validation failure, not a pass-through. -/
theorem getRoute_omitted_query_defaults_empty :
    (∀ (router : Router) (path : String),
      getRoute router path none = getRoute router path (some (JSVal.obj []))) ∧
    (∀ (router : Router) (path : String) (route : Route) (ps : List (String × String))
        (opts : RouteOptions) (sch : Schema) (issues : List Issue),
      findRoute router.registry path = some (route, ps) →
      route.options = some opts → opts.query = some sch →
      sch.validate (JSVal.obj []) = ValidateResult.failure issues →
      ∃ ictx : InternalContext,
        createInternalContext
          { path := some path
            params := some ps
            query := JSVal.obj []
            context := some (resolveRouterContext router.config) }
          route.options route.path = .ok ictx ∧
        ictx.query = JSVal.undef ∧
        ictx.queryError = some { message := "Invalid query parameters" } ∧
        getRoute router path none = .ok (some (assembleReturn (route.handler ictx) ps))) := by
  refine ⟨fun router path => rfl, ?_⟩
  intro router path route ps opts sch issues hfind hopts hsch hval
  refine ⟨{ path := if path = "" then route.path else path
            params := some ps
            query := JSVal.undef
            queryError := some (fromError issues "query")
            context :=
              if (resolveRouterContext router.config).truthy then
                resolveRouterContext router.config
              else JSVal.obj []
            method := "GET" }, ?_, rfl, rfl, ?_⟩
  · simp [createInternalContext, hopts, runValidation, hsch, hval, pure, Except.pure,
      bind, Except.bind]
  · rw [getRoute_eq_found router path none route ps hfind]
    simp [internalHandler, createInternalContext, hopts, runValidation, hsch, hval,
      normalizeQueryParams, Except.map, pure, Except.pure, bind, Except.bind]

/-- Witness for C10: a schema requiring a key rejects the defaulted `{}`,
so resolving with the query omitted yields the validation-failure context. -/
theorem getRoute_omitted_query_defaults_empty_witness :
    (getRoute requiredKeyRouter "/need" none =
      getRoute requiredKeyRouter "/need" (some (JSVal.obj []))) ∧
    (∃ ictx : InternalContext,
      createInternalContext
        { path := some "/need"
          params := some []
          query := JSVal.obj []
          context := some (resolveRouterContext requiredKeyRouter.config) }
        requiredKeyRoute.options requiredKeyRoute.path = .ok ictx ∧
      ictx.query = JSVal.undef ∧
      ictx.queryError = some { message := "Invalid query parameters" } ∧
      getRoute requiredKeyRouter "/need" none =
        .ok (some (assembleReturn (requiredKeyRoute.handler ictx) []))) :=
  ⟨getRoute_omitted_query_defaults_empty.1 requiredKeyRouter "/need",
    getRoute_omitted_query_defaults_empty.2 requiredKeyRouter "/need" requiredKeyRoute []
      requiredKeyRouteOptions requiredKeySchema [{ message := "Required" }] rfl rfl rfl rfl⟩

end Yar
